import Mathlib

/-!
Shallow embedding of `src/main.py` (FranSystem ERP backend: FastAPI handlers
over a SQLAlchemy relational store).

Modelling conventions:
* SQL `Float` money columns are modelled as `ℚ` (exact arithmetic idealisation
  of the binary floats the store holds).
* SQL `Integer` ids are `Nat`; `Producto.stock` is `Int` (it may go negative).
* `DateTime` values are `Nat` UTC timestamps in whole seconds; a calendar date
  (the `desde`/`hasta` query strings) is a `Nat` day index, with day `d`
  covering seconds `[d*86400, d*86400+86399]`.  The source's
  `hasta + " 23:59:59"` end-of-day extension becomes `hasta*86400 + 86399`.
* Each table is a `List` of rows in insertion order; autoincrement primary
  keys are explicit per-table counters on the `DB` state.
* A handler returns `Except Err (α × DB)`.  `Err.http code msg` models an
  explicit `HTTPException`; `Err.integrity msg` models an `IntegrityError`
  raised by the store at commit time that the handler does not catch (the
  default backend is SQLite; its UNIQUE constraints are enforced, while
  foreign keys are not, since SQLAlchemy does not issue
  `PRAGMA foreign_keys=ON`).  On an error the transaction is rolled back, so
  the state component is absent: callers that need the post-state of a failed
  call use `dbAfter`, which keeps the prior state.
-/

namespace FranSystem

/-- Row of table `clientes` (class `Cliente`, main.py lines 24-33). -/
structure Cliente where
  id : Nat
  nombre : String
  documento : String
  telefono : String
  email : String
  direccion : String
  activo : Bool
  fecha_registro : Nat
  deriving Repr, DecidableEq

/-- Row of table `productos` (class `Producto`, main.py lines 35-45). -/
structure Producto where
  id : Nat
  codigo : String
  nombre : String
  descripcion : String
  precio : ℚ
  stock : Int
  stock_minimo : Int
  activo : Bool
  fecha_creacion : Nat
  deriving Repr, DecidableEq

/-- Row of table `recibos` (class `Recibo`, main.py lines 47-58). -/
structure Recibo where
  id : Nat
  numero : String
  cliente_id : Option Nat
  fecha : Nat
  subtotal : ℚ
  descuento : ℚ
  total : ℚ
  estado : String
  observaciones : String
  deriving Repr, DecidableEq

/-- Row of table `recibos_detalle` (class `ReciboDetalle`, main.py lines 60-68). -/
structure ReciboDetalle where
  id : Nat
  recibo_id : Nat
  producto_id : Option Nat
  cantidad : Int
  precio_unitario : ℚ
  subtotal : ℚ
  deriving Repr, DecidableEq

/-- Row of table `ventas` (class `Venta`, main.py lines 81-89). -/
structure Venta where
  id : Nat
  recibo_id : Option Nat
  cliente_id : Option Nat
  fecha : Nat
  total : ℚ
  forma_pago : String
  vendedor : String
  deriving Repr, DecidableEq

/-- Row of table `cuenta_corriente` (class `CuentaCorriente`, main.py lines 91-100).
`tipo` is the free string column holding "DEBE" or "HABER". -/
structure CuentaCorriente where
  id : Nat
  cliente_id : Nat
  tipo : String
  monto : ℚ
  concepto : String
  recibo_id : Option Nat
  fecha : Nat
  saldo : Option ℚ
  deriving Repr, DecidableEq

/-- The relational store: one list per table (insertion order) plus the
autoincrement counters for the generated primary keys. -/
structure DB where
  clientes : List Cliente
  productos : List Producto
  recibos : List Recibo
  recibos_detalle : List ReciboDetalle
  ventas : List Venta
  cuenta_corriente : List CuentaCorriente
  next_cliente_id : Nat
  next_producto_id : Nat
  next_recibo_id : Nat
  next_detalle_id : Nat
  next_venta_id : Nat
  next_cc_id : Nat
  deriving Repr, DecidableEq

def emptyDB : DB :=
  { clientes := [], productos := [], recibos := [], recibos_detalle := []
    ventas := [], cuenta_corriente := []
    next_cliente_id := 1, next_producto_id := 1, next_recibo_id := 1
    next_detalle_id := 1, next_venta_id := 1, next_cc_id := 1 }

/-- Outcome of a failed request: an explicit `HTTPException(code, msg)`, or an
`IntegrityError` from the store's constraint check that the handler lets
escape unhandled (FastAPI then reports it as an internal server error, 500,
not as a structured client response). -/
inductive Err where
  | http (code : Nat) (msg : String)
  | integrity (msg : String)
  deriving Repr, DecidableEq

/-- Post-state of a handler call: the committed state on success, the
unchanged prior state after a rollback on failure. -/
def dbAfter {α : Type} (res : Except Err (α × DB)) (db : DB) : DB :=
  match res with
  | .ok (_, db') => db'
  | .error _ => db

/-- True when the result is an explicit HTTP 409 conflict response. -/
def isConflict {α : Type} : Except Err (α × DB) → Bool
  | .error (.http 409 _) => true
  | _ => false

/-- True when the result is an error of any kind. -/
def isError {α : Type} : Except Err (α × DB) → Bool
  | .error _ => true
  | _ => false

-- ── Pydantic request schemas (main.py lines 104-155) ──

/-- Schema `ClienteCreate`. -/
structure ClienteCreate where
  nombre : String
  documento : String
  telefono : String
  email : String
  direccion : String
  deriving Repr, DecidableEq

/-- Schema `ProductoCreate`. -/
structure ProductoCreate where
  codigo : String
  nombre : String
  descripcion : String
  precio : ℚ
  stock : Int
  stock_minimo : Int
  deriving Repr, DecidableEq

/-- Schema `ReciboItemCreate`. -/
structure ReciboItemCreate where
  producto_id : Option Nat
  cantidad : Int
  precio_unitario : ℚ
  subtotal : ℚ
  deriving Repr, DecidableEq

/-- Schema `ReciboCreate`. -/
structure ReciboCreate where
  numero : String
  cliente_id : Option Nat
  subtotal : ℚ
  descuento : ℚ
  total : ℚ
  estado : String
  observaciones : String
  items : List ReciboItemCreate
  deriving Repr, DecidableEq

/-- Schema `CuentaCorrienteCreate`. -/
structure CuentaCorrienteCreate where
  cliente_id : Nat
  tipo : String
  monto : ℚ
  concepto : String
  recibo_id : Option Nat
  deriving Repr, DecidableEq

-- ── Sorting relations for the ORDER BY clauses ──

/-- Relation for ORDER BY fecha DESC on `recibos`. -/
def reciboNewerFirst : Recibo → Recibo → Prop := fun a b => b.fecha ≤ a.fecha

instance : DecidableRel reciboNewerFirst :=
  fun a b => inferInstanceAs (Decidable (b.fecha ≤ a.fecha))

instance : IsTotal Recibo reciboNewerFirst := ⟨fun a b => le_total b.fecha a.fecha⟩

instance : IsTrans Recibo reciboNewerFirst := ⟨fun _ _ _ h1 h2 => le_trans h2 h1⟩

/-- Relation for ORDER BY fecha DESC on `ventas`. -/
def ventaNewerFirst : Venta → Venta → Prop := fun a b => b.fecha ≤ a.fecha

instance : DecidableRel ventaNewerFirst :=
  fun a b => inferInstanceAs (Decidable (b.fecha ≤ a.fecha))

instance : IsTotal Venta ventaNewerFirst := ⟨fun a b => le_total b.fecha a.fecha⟩

instance : IsTrans Venta ventaNewerFirst := ⟨fun _ _ _ h1 h2 => le_trans h2 h1⟩

/-- Relation for ORDER BY nombre on `clientes`. -/
def clienteByName : Cliente → Cliente → Prop := fun a b => a.nombre ≤ b.nombre

instance : DecidableRel clienteByName :=
  fun a b => inferInstanceAs (Decidable (a.nombre ≤ b.nombre))

instance : IsTotal Cliente clienteByName := ⟨fun a b => le_total a.nombre b.nombre⟩

instance : IsTrans Cliente clienteByName := ⟨fun _ _ _ h1 h2 => le_trans h1 h2⟩

-- ── CLIENTES handlers ──

/-- Handler for GET /clientes (main.py lines 221-223): active customers only,
ordered by name. -/
def list_clientes (db : DB) : List Cliente :=
  (db.clientes.filter fun c => c.activo).insertionSort clienteByName

/-- Handler for GET /clientes/\x7bcid\x7d (main.py lines 225-230): first row with the id,
404 when absent.  Reads commit nothing, so the state is returned unchanged. -/
def get_cliente (cid : Nat) (db : DB) : Except Err (Cliente × DB) :=
  match db.clientes.find? fun c => c.id = cid with
  | none => .error (.http 404 "Cliente no encontrado")
  | some c => .ok (c, db)

/-- Update the first row matching the id (the `first()` row the handler
mutates), leaving the rest untouched. -/
def setClienteInactive : List Cliente → Nat → List Cliente
  | [], _ => []
  | c :: cs, cid =>
    if c.id = cid then { c with activo := false } :: cs
    else c :: setClienteInactive cs cid

/-- Handler for DELETE /clientes/\x7bcid\x7d (main.py lines 250-261): soft delete, sets
`activo = False` on the fetched row and commits.  (The `IntegrityError`
branch of the source is unreachable here: flipping a boolean column violates
no constraint, so the model always commits once the row is found.) -/
def delete_cliente (cid : Nat) (db : DB) : Except Err (Unit × DB) :=
  match db.clientes.find? fun c => c.id = cid with
  | none => .error (.http 404 "Cliente no encontrado")
  | some _ => .ok ((), { db with clientes := setClienteInactive db.clientes cid })

-- ── PRODUCTOS handlers ──

/-- Handler for POST /productos (main.py lines 278-284): insert and commit.  The
UNIQUE constraint on `productos.codigo` fires at commit; the handler has no
try/except, so the `IntegrityError` escapes unhandled and the transaction
rolls back. -/
def create_producto (data : ProductoCreate) (now : Nat) (db : DB) :
    Except Err (Producto × DB) :=
  if db.productos.any fun q => q.codigo = data.codigo then
    .error (.integrity "UNIQUE constraint failed: productos.codigo")
  else
    let p : Producto :=
      { id := db.next_producto_id, codigo := data.codigo, nombre := data.nombre
        descripcion := data.descripcion, precio := data.precio
        stock := data.stock, stock_minimo := data.stock_minimo
        activo := true, fecha_creacion := now }
    .ok (p, { db with productos := db.productos ++ [p]
                      next_producto_id := db.next_producto_id + 1 })

/-- Stock of the first product with the given id, when it exists. -/
def stockOf (pid : Nat) (db : DB) : Option Int :=
  (db.productos.find? fun p => p.id = pid).map fun p => p.stock

-- ── RECIBOS handlers ──

/-- Build the `recibos_detalle` rows added by `create_recibo`'s loop, with
their generated ids starting at `firstId`. -/
def mkDetalles (rid firstId : Nat) : List ReciboItemCreate → List ReciboDetalle
  | [] => []
  | it :: its =>
    { id := firstId, recibo_id := rid, producto_id := it.producto_id
      cantidad := it.cantidad, precio_unitario := it.precio_unitario
      subtotal := it.subtotal } :: mkDetalles rid (firstId + 1) its

/-- Handler for POST /recibos (main.py lines 360-372): insert the `Recibo` header,
flush to obtain its id, insert one `ReciboDetalle` per item, commit.  The
handler performs no product lookup, no stock update, and writes nothing to
`ventas` or `cuenta_corriente`; line `producto_id` values are stored as
given (SQLite does not enforce the foreign key).  The only failure is the
UNIQUE constraint on `recibos.numero`, which escapes as an unhandled
`IntegrityError` and rolls the whole transaction back. -/
def create_recibo (data : ReciboCreate) (now : Nat) (db : DB) :
    Except Err (Recibo × DB) :=
  if db.recibos.any fun q => q.numero = data.numero then
    .error (.integrity "UNIQUE constraint failed: recibos.numero")
  else
    let r : Recibo :=
      { id := db.next_recibo_id, numero := data.numero
        cliente_id := data.cliente_id, fecha := now
        subtotal := data.subtotal, descuento := data.descuento
        total := data.total, estado := data.estado
        observaciones := data.observaciones }
    let ds := mkDetalles r.id db.next_detalle_id data.items
    .ok (r, { db with recibos := db.recibos ++ [r]
                      recibos_detalle := db.recibos_detalle ++ ds
                      next_recibo_id := db.next_recibo_id + 1
                      next_detalle_id := db.next_detalle_id + data.items.length })

/-- Handler for DELETE /recibos/\x7brid\x7d (main.py lines 383-390): fetch by id (404 when
absent), `db.delete(r)` and commit.  The `items` relationship carries
`cascade="all, delete-orphan"`, so every `ReciboDetalle` of the receipt is
deleted with it; `ventas` and `cuenta_corriente` have no relationship to
`Recibo` and are not touched (SQLite leaves their `recibo_id` references
dangling). -/
def delete_recibo (rid : Nat) (db : DB) : Except Err (Unit × DB) :=
  match db.recibos.find? fun r => r.id = rid with
  | none => .error (.http 404 "Recibo no encontrado")
  | some _ =>
    .ok ((), { db with
      recibos := db.recibos.filter fun r => r.id ≠ rid
      recibos_detalle := db.recibos_detalle.filter fun d => d.recibo_id ≠ rid })

/-- Handler for GET /recibos/filtrar (main.py lines 334-339): rows with
`fecha >= desde` (midnight of `desde`) and `fecha <= hasta + " 23:59:59"`
(last second of `hasta`), newest first. -/
def filtrar_recibos (desde hasta : Nat) (db : DB) : List Recibo :=
  ((db.recibos.filter fun r =>
      desde * 86400 ≤ r.fecha ∧ r.fecha ≤ hasta * 86400 + 86399).insertionSort
    reciboNewerFirst)

/-- Handler for GET /ventas/filtrar (main.py lines 460-465): same range
logic as `filtrar_recibos`, over `ventas`. -/
def filtrar_ventas (desde hasta : Nat) (db : DB) : List Venta :=
  ((db.ventas.filter fun v =>
      desde * 86400 ≤ v.fecha ∧ v.fecha ≤ hasta * 86400 + 86399).insertionSort
    ventaNewerFirst)

-- ── CUENTA CORRIENTE handlers ──

/-- Aggregate SUM(monto) over a customer's ledger rows of one `tipo`, with the SQL
`COALESCE(..., 0)` empty-set default (folded left like the aggregate scan). -/
def sumTipo (db : DB) (c : Nat) (t : String) : ℚ :=
  ((db.cuenta_corriente.filter fun m => m.cliente_id = c ∧ m.tipo = t).foldl
    (fun acc m => acc + m.monto) 0)

/-- Handler for GET saldo (main.py lines 508-513):
`float(debe) - float(haber)` where each side is a coalesced sum. -/
def get_saldo (cliente_id : Nat) (db : DB) : ℚ :=
  sumTipo db cliente_id "DEBE" - sumTipo db cliente_id "HABER"

/-- Handler for POST /cuenta-corriente (main.py lines 515-521): unconditional insert
of one ledger row (no constraint can fire: the foreign keys are not
enforced by the SQLite backend and there is no unique column). -/
def create_movimiento (data : CuentaCorrienteCreate) (now : Nat) (db : DB) :
    CuentaCorriente × DB :=
  let m : CuentaCorriente :=
    { id := db.next_cc_id, cliente_id := data.cliente_id, tipo := data.tipo
      monto := data.monto, concepto := data.concepto
      recibo_id := data.recibo_id, fecha := now, saldo := none }
  (m, { db with cuenta_corriente := db.cuenta_corriente ++ [m]
                next_cc_id := db.next_cc_id + 1 })

-- ── STATS ──

/-- The distinct customer ids produced by the `GROUP BY cliente_id` over
`tipo = "DEBE"` rows (main.py line 204). -/
def debeIds (db : DB) : List Nat :=
  ((db.cuenta_corriente.filter fun m => m.tipo = "DEBE").map
    fun m => m.cliente_id).dedup

/-- The `clientes_con_deuda` aggregate of `GET /stats` (main.py lines
203-207): for each customer appearing in the DEBE grouping, count them when
their DEBE sum strictly exceeds their HABER sum (`haber_dict.get(d[0], 0)`
defaults an absent HABER group to 0, matching the coalesced `sumTipo`). -/
def clientes_con_deuda (db : DB) : Nat :=
  ((debeIds db).filter fun c => sumTipo db c "HABER" < sumTipo db c "DEBE").length

-- ════════════════════════ Helper lemmas ════════════════════════

theorem foldl_add_monto (l : List CuentaCorriente) (a : ℚ) :
    l.foldl (fun acc m => acc + m.monto) a = a + (l.map fun m => m.monto).sum := by
  induction l generalizing a with
  | nil => simp
  | cons m l ih => simp [ih, add_assoc]

theorem length_mkDetalles (rid fid : Nat) (its : List ReciboItemCreate) :
    (mkDetalles rid fid its).length = its.length := by
  induction its generalizing fid with
  | nil => rfl
  | cons it its ih => simp [mkDetalles, ih]

theorem map_producto_id_mkDetalles (rid fid : Nat) (its : List ReciboItemCreate) :
    ((mkDetalles rid fid its).map fun d => d.producto_id) =
      its.map fun it => it.producto_id := by
  induction its generalizing fid with
  | nil => rfl
  | cons it its ih => simp [mkDetalles, ih]

-- ════════════════════════ Claim theorems ════════════════════════

/-- C4: the balance query returns the sum of the customer's DEBE amounts
minus the sum of their HABER amounts, and returns 0 for a customer with no
ledger entries. -/
theorem saldo_is_debe_minus_haber (c : Nat) (db : DB) :
    get_saldo c db =
      ((db.cuenta_corriente.filter fun m => m.cliente_id = c ∧ m.tipo = "DEBE").map
        fun m => m.monto).sum -
      ((db.cuenta_corriente.filter fun m => m.cliente_id = c ∧ m.tipo = "HABER").map
        fun m => m.monto).sum ∧
    (db.cuenta_corriente.filter (fun m => m.cliente_id = c) = [] →
      get_saldo c db = 0) := by
  constructor
  · simp [get_saldo, sumTipo, foldl_add_monto]
  · intro h
    rw [List.filter_eq_nil_iff] at h
    have hD : db.cuenta_corriente.filter
        (fun m => decide (m.cliente_id = c) && decide (m.tipo = "DEBE")) = [] := by
      rw [List.filter_eq_nil_iff]
      intro m hm
      simp only [Bool.and_eq_true, decide_eq_true_eq, not_and]
      intro h1 _
      exact (h m hm) (by simp [h1])
    have hH : db.cuenta_corriente.filter
        (fun m => decide (m.cliente_id = c) && decide (m.tipo = "HABER")) = [] := by
      rw [List.filter_eq_nil_iff]
      intro m hm
      simp only [Bool.and_eq_true, decide_eq_true_eq, not_and]
      intro h1 _
      exact (h m hm) (by simp [h1])
    simp [get_saldo, sumTipo, hD, hH]

/-- Witness for C4 at customer 1 on the empty store. -/
theorem saldo_is_debe_minus_haber_witness :
    get_saldo 1 emptyDB =
      ((emptyDB.cuenta_corriente.filter fun m => m.cliente_id = 1 ∧ m.tipo = "DEBE").map
        fun m => m.monto).sum -
      ((emptyDB.cuenta_corriente.filter fun m => m.cliente_id = 1 ∧ m.tipo = "HABER").map
        fun m => m.monto).sum ∧
    get_saldo 1 emptyDB = 0 :=
  ⟨(saldo_is_debe_minus_haber 1 emptyDB).1,
   (saldo_is_debe_minus_haber 1 emptyDB).2 (by decide)⟩

/-- C5: posting a DEBE movement of amount x and then a HABER movement of the
same amount through POST /cuenta-corriente returns the customer's computed
balance to its prior value, for every customer, amount and prior store. -/
theorem movimiento_roundtrip (c : Nat) (x : ℚ) (con1 con2 : String)
    (r1 r2 : Option Nat) (t1 t2 : Nat) (db : DB) :
    get_saldo c
      (create_movimiento ⟨c, "HABER", x, con2, r2⟩ t2
        (create_movimiento ⟨c, "DEBE", x, con1, r1⟩ t1 db).2).2 =
    get_saldo c db := by
  simp [create_movimiento, get_saldo, sumTipo, List.filter_append, foldl_add_monto]

/-- C6 (amended): the stats endpoint counts a customer as in debt iff the
customer appears in the DEBE grouping and their balance (DEBE sum minus
HABER sum) is strictly positive; no epsilon of one unit is applied. -/
theorem clientes_con_deuda_eq_positive_saldo (db : DB) :
    clientes_con_deuda db =
      ((debeIds db).filter fun c => 0 < get_saldo c db).length := by
  unfold clientes_con_deuda
  congr 1
  refine List.filter_congr ?_
  intro c _
  simp only [decide_eq_decide]
  rw [get_saldo]
  exact sub_pos.symm

def ccHalf : CuentaCorriente :=
  { id := 1, cliente_id := 1, tipo := "DEBE", monto := 1/2, concepto := ""
    recibo_id := none, fecha := 0, saldo := none }

/-- Store with a single ledger row: customer 1 owes 1/2. -/
def dbC6 : DB := { emptyDB with cuenta_corriente := [ccHalf], next_cc_id := 2 }

/-- C6 counterexample: customer 1 has balance 1/2, strictly between 0 and 1,
yet the stats aggregate counts them as in debt — the code compares the DEBE
sum strictly against the HABER sum with no epsilon of one unit. -/
theorem stats_counts_balance_below_one :
    clientes_con_deuda dbC6 = 1 ∧ get_saldo 1 dbC6 = 1/2 ∧
    (0 : ℚ) < 1/2 ∧ (1/2 : ℚ) < 1 := by
  refine ⟨?_, ?_, by norm_num, by norm_num⟩
  · simp only [clientes_con_deuda, debeIds, dbC6, ccHalf, emptyDB, sumTipo]
    simp [List.filter, List.dedup]
  · simp only [get_saldo, sumTipo, dbC6, ccHalf, emptyDB]
    simp [List.filter]

/-- Request fixture: a receipt with an empty line list. -/
def reciboEmpty : ReciboCreate :=
  { numero := "R-001", cliente_id := none, subtotal := 0, descuento := 0
    total := 15, estado := "PENDIENTE", observaciones := "", items := [] }

/-- C1 counterexample: a successful POST /recibos (here with an empty line
list, total 15) adds no CuentaCorriente row and no Venta row at all — not
the exactly-one DEBE ledger entry and exactly-one sale the claim requires. -/
theorem recibo_creation_writes_no_ledger_no_sale :
    isError (create_recibo reciboEmpty 0 emptyDB) = false ∧
    (dbAfter (create_recibo reciboEmpty 0 emptyDB) emptyDB).cuenta_corriente.length = 0 ∧
    (dbAfter (create_recibo reciboEmpty 0 emptyDB) emptyDB).ventas.length = 0 := by
  refine ⟨rfl, rfl, rfl⟩

/-- C1 (amended): a successful POST /recibos inserts exactly one Recibo row
and one ReciboDetalle row per line item, and writes nothing to the ledger or
the sales table: cuenta_corriente and ventas are unchanged. -/
theorem create_recibo_row_counts (data : ReciboCreate) (now : Nat) (db : DB)
    (h : isError (create_recibo data now db) = false) :
    (dbAfter (create_recibo data now db) db).recibos.length = db.recibos.length + 1 ∧
    (dbAfter (create_recibo data now db) db).recibos_detalle.length =
      db.recibos_detalle.length + data.items.length ∧
    (dbAfter (create_recibo data now db) db).cuenta_corriente = db.cuenta_corriente ∧
    (dbAfter (create_recibo data now db) db).ventas = db.ventas := by
  by_cases hdup : (db.recibos.any fun q => q.numero = data.numero) = true
  · simp [create_recibo, hdup, isError] at h
  · simp only [Bool.not_eq_true] at hdup
    simp [create_recibo, hdup, dbAfter, length_mkDetalles]

/-- Witness for C1 (amended) on the empty store. -/
theorem create_recibo_row_counts_witness :
    (dbAfter (create_recibo reciboEmpty 0 emptyDB) emptyDB).recibos.length =
      emptyDB.recibos.length + 1 ∧
    (dbAfter (create_recibo reciboEmpty 0 emptyDB) emptyDB).recibos_detalle.length =
      emptyDB.recibos_detalle.length + reciboEmpty.items.length ∧
    (dbAfter (create_recibo reciboEmpty 0 emptyDB) emptyDB).cuenta_corriente =
      emptyDB.cuenta_corriente ∧
    (dbAfter (create_recibo reciboEmpty 0 emptyDB) emptyDB).ventas = emptyDB.ventas :=
  create_recibo_row_counts reciboEmpty 0 emptyDB rfl

/-- Product fixture: id 1, code P1, stock 10. -/
def prodW : Producto :=
  { id := 1, codigo := "P1", nombre := "Prod", descripcion := "", precio := 5
    stock := 10, stock_minimo := 10, activo := true, fecha_creacion := 0 }

/-- Store holding just product P1 with stock 10. -/
def dbProd : DB := { emptyDB with productos := [prodW], next_producto_id := 2 }

/-- Request fixture: one line of quantity 3 on product 1, unit price 5. -/
def reciboQty3 : ReciboCreate :=
  { numero := "R-002", cliente_id := some 1, subtotal := 15, descuento := 0
    total := 15, estado := "PENDIENTE", observaciones := ""
    items := [{ producto_id := some 1, cantidad := 3, precio_unitario := 5, subtotal := 15 }] }

/-- C2 counterexample: a successful receipt with a quantity-3 line on
product 1 (stock 10) leaves the stock at 10 — not the 7 a decrement by the
line quantity would give. -/
theorem stock_not_decremented :
    isError (create_recibo reciboQty3 0 dbProd) = false ∧
    stockOf 1 (dbAfter (create_recibo reciboQty3 0 dbProd) dbProd) = some 10 ∧
    stockOf 1 (dbAfter (create_recibo reciboQty3 0 dbProd) dbProd) ≠ some 7 := by
  refine ⟨rfl, rfl, by decide⟩

/-- C2 (amended): POST /recibos leaves the productos table — in particular
every product's stock — entirely unchanged, whether or not its lines carry
product references. -/
theorem create_recibo_preserves_productos (data : ReciboCreate) (now : Nat) (db : DB)
    (h : isError (create_recibo data now db) = false) :
    (dbAfter (create_recibo data now db) db).productos = db.productos := by
  by_cases hdup : (db.recibos.any fun q => q.numero = data.numero) = true
  · simp [create_recibo, hdup, isError] at h
  · simp only [Bool.not_eq_true] at hdup
    simp [create_recibo, hdup, dbAfter]

/-- Witness for C2 (amended): the quantity-3 receipt on the one-product
store leaves the productos table as it was. -/
theorem create_recibo_preserves_productos_witness :
    (dbAfter (create_recibo reciboQty3 0 dbProd) dbProd).productos = dbProd.productos :=
  create_recibo_preserves_productos reciboQty3 0 dbProd rfl

/-- Request fixture: one line referencing the nonexistent product id 99. -/
def reciboDangling : ReciboCreate :=
  { numero := "R-003", cliente_id := none, subtotal := 9, descuento := 0
    total := 9, estado := "PENDIENTE", observaciones := ""
    items := [{ producto_id := some 99, cantidad := 1, precio_unitario := 9, subtotal := 9 }] }

/-- C3 counterexample: no product with id 99 exists, yet the creation
succeeds (no validation error) and one Recibo row plus one ReciboDetalle row
are added — there is no rollback because nothing fails. -/
theorem dangling_product_ref_accepted :
    (emptyDB.productos.find? fun p => p.id = 99) = none ∧
    isError (create_recibo reciboDangling 0 emptyDB) = false ∧
    (dbAfter (create_recibo reciboDangling 0 emptyDB) emptyDB).recibos.length = 1 ∧
    (dbAfter (create_recibo reciboDangling 0 emptyDB) emptyDB).recibos_detalle.length = 1 := by
  refine ⟨rfl, rfl, rfl, rfl⟩

/-- C3 (amended): POST /recibos performs no product-reference validation:
whenever the receipt number is fresh the call succeeds, and the inserted
detail rows store the given product ids verbatim, resolvable or not (the
SQLite backend does not enforce the foreign key). -/
theorem create_recibo_no_product_validation (data : ReciboCreate) (now : Nat) (db : DB)
    (h : (db.recibos.any fun q => q.numero = data.numero) = false) :
    isError (create_recibo data now db) = false ∧
    ((dbAfter (create_recibo data now db) db).recibos_detalle.map fun d => d.producto_id) =
      (db.recibos_detalle.map fun d => d.producto_id) ++
        (data.items.map fun it => it.producto_id) := by
  simp [create_recibo, h, isError, dbAfter, map_producto_id_mkDetalles]

/-- Witness for C3 (amended): the dangling-reference request on the empty
store succeeds and stores product id 99 in its detail row. -/
theorem create_recibo_no_product_validation_witness :
    isError (create_recibo reciboDangling 0 emptyDB) = false ∧
    ((dbAfter (create_recibo reciboDangling 0 emptyDB) emptyDB).recibos_detalle.map
      fun d => d.producto_id) =
      (emptyDB.recibos_detalle.map fun d => d.producto_id) ++
        (reciboDangling.items.map fun it => it.producto_id) :=
  create_recibo_no_product_validation reciboDangling 0 emptyDB rfl

/-- Request fixture: a second product reusing code P1. -/
def prodDup : ProductoCreate :=
  { codigo := "P1", nombre := "Otro", descripcion := "", precio := 3
    stock := 1, stock_minimo := 10 }

/-- C7 counterexample: creating a product whose code duplicates P1 is indeed
rejected, but not as a conflict response — the handler catches nothing, so
the store's IntegrityError escapes unhandled (an internal error to the
client), unlike the explicit 409 the claim describes. -/
theorem duplicate_code_not_conflict_response :
    isError (create_producto prodDup 0 dbProd) = true ∧
    isConflict (create_producto prodDup 0 dbProd) = false := by
  refine ⟨rfl, rfl⟩

/-- C7 (amended): a duplicate product code (or duplicate receipt number) is
rejected by the store's uniqueness constraint, but surfaces as an unhandled
IntegrityError rather than a conflict response; the rejected call leaves
the corresponding table unchanged. -/
theorem duplicate_key_unhandled_integrity (pdata : ProductoCreate)
    (rdata : ReciboCreate) (now : Nat) (db : DB)
    (hp : (db.productos.any fun q => q.codigo = pdata.codigo) = true)
    (hr : (db.recibos.any fun q => q.numero = rdata.numero) = true) :
    create_producto pdata now db =
      .error (.integrity "UNIQUE constraint failed: productos.codigo") ∧
    isConflict (create_producto pdata now db) = false ∧
    (dbAfter (create_producto pdata now db) db).productos = db.productos ∧
    create_recibo rdata now db =
      .error (.integrity "UNIQUE constraint failed: recibos.numero") ∧
    isConflict (create_recibo rdata now db) = false ∧
    (dbAfter (create_recibo rdata now db) db).recibos = db.recibos := by
  simp [create_producto, create_recibo, hp, hr, isConflict, dbAfter]

/-- Receipt row fixture reusing number R-001. -/
def recR1 : Recibo :=
  { id := 1, numero := "R-001", cliente_id := none, fecha := 0, subtotal := 0
    descuento := 0, total := 15, estado := "PENDIENTE", observaciones := "" }

/-- Store holding product P1 and receipt R-001, for duplicate-key calls. -/
def dbDupKeys : DB :=
  { emptyDB with productos := [prodW], recibos := [recR1]
                 next_producto_id := 2, next_recibo_id := 2 }

/-- Witness for C7 (amended): duplicate code P1 and duplicate number R-001
both surface as unhandled integrity errors and change nothing. -/
theorem duplicate_key_unhandled_integrity_witness :
    create_producto prodDup 0 dbDupKeys =
      .error (.integrity "UNIQUE constraint failed: productos.codigo") ∧
    isConflict (create_producto prodDup 0 dbDupKeys) = false ∧
    (dbAfter (create_producto prodDup 0 dbDupKeys) dbDupKeys).productos =
      dbDupKeys.productos ∧
    create_recibo reciboEmpty 0 dbDupKeys =
      .error (.integrity "UNIQUE constraint failed: recibos.numero") ∧
    isConflict (create_recibo reciboEmpty 0 dbDupKeys) = false ∧
    (dbAfter (create_recibo reciboEmpty 0 dbDupKeys) dbDupKeys).recibos =
      dbDupKeys.recibos :=
  duplicate_key_unhandled_integrity prodDup reciboEmpty 0 dbDupKeys rfl rfl

/-- C8: the ranged listings are inclusive on both boundary days — any row
whose timestamp falls on the `hasta` day is returned (end-of-day extension),
any row on the day after `hasta` is not — and the results come back sorted
newest-first by timestamp, for receipts and sales alike. -/
theorem filtrar_inclusive_bounds (db : DB) (desde hasta : Nat) (hdh : desde ≤ hasta) :
    (∀ r ∈ db.recibos, r.fecha / 86400 = hasta → r ∈ filtrar_recibos desde hasta db) ∧
    (∀ r ∈ db.recibos, r.fecha / 86400 = hasta + 1 → r ∉ filtrar_recibos desde hasta db) ∧
    List.Sorted reciboNewerFirst (filtrar_recibos desde hasta db) ∧
    (∀ v ∈ db.ventas, v.fecha / 86400 = hasta → v ∈ filtrar_ventas desde hasta db) ∧
    (∀ v ∈ db.ventas, v.fecha / 86400 = hasta + 1 → v ∉ filtrar_ventas desde hasta db) ∧
    List.Sorted ventaNewerFirst (filtrar_ventas desde hasta db) := by
  refine ⟨?_, ?_, ?_, ?_, ?_, ?_⟩
  · intro r hr hday
    unfold filtrar_recibos
    rw [List.mem_insertionSort, List.mem_filter]
    refine ⟨hr, ?_⟩
    simp only [decide_eq_true_eq]
    omega
  · intro r _ hday hmem
    unfold filtrar_recibos at hmem
    rw [List.mem_insertionSort, List.mem_filter] at hmem
    have hcond := hmem.2
    simp only [decide_eq_true_eq] at hcond
    omega
  · exact List.sorted_insertionSort reciboNewerFirst _
  · intro v hv hday
    unfold filtrar_ventas
    rw [List.mem_insertionSort, List.mem_filter]
    refine ⟨hv, ?_⟩
    simp only [decide_eq_true_eq]
    omega
  · intro v _ hday hmem
    unfold filtrar_ventas at hmem
    rw [List.mem_insertionSort, List.mem_filter] at hmem
    have hcond := hmem.2
    simp only [decide_eq_true_eq] at hcond
    omega
  · exact List.sorted_insertionSort ventaNewerFirst _

/-- Receipt fixture timestamped 00:00:50 on day 1. -/
def recDay1 : Recibo :=
  { id := 1, numero := "R-100", cliente_id := none, fecha := 86450, subtotal := 0
    descuento := 0, total := 10, estado := "PENDIENTE", observaciones := "" }

/-- Store with one receipt, on day 1. -/
def dbDay : DB := { emptyDB with recibos := [recDay1], next_recibo_id := 2 }

/-- Witness for C8: filtering days 0..1 returns the receipt dated on day 1. -/
theorem filtrar_inclusive_bounds_witness : recDay1 ∈ filtrar_recibos 0 1 dbDay :=
  (filtrar_inclusive_bounds dbDay 0 1 (by decide)).1 recDay1
    (by simp [dbDay, emptyDB]) (by decide)

theorem length_setClienteInactive (l : List Cliente) (cid : Nat) :
    (setClienteInactive l cid).length = l.length := by
  induction l with
  | nil => rfl
  | cons c cs ih =>
    by_cases h : c.id = cid <;> simp [setClienteInactive, h, ih]

theorem find?_setClienteInactive (l : List Cliente) (cid : Nat) :
    (setClienteInactive l cid).find? (fun c => c.id = cid) =
      (l.find? fun c => c.id = cid).map fun c => { c with activo := false } := by
  induction l with
  | nil => rfl
  | cons c cs ih =>
    by_cases h : c.id = cid
    · rw [setClienteInactive, if_pos h]
      rw [List.find?_cons_of_pos _ (by simp [h]), List.find?_cons_of_pos _ (by simp [h])]
      rfl
    · rw [setClienteInactive, if_neg h]
      rw [List.find?_cons_of_neg _ (by simp [h]), List.find?_cons_of_neg _ (by simp [h])]
      exact ih

theorem mem_setClienteInactive_inactive (l : List Cliente) (cid : Nat)
    (hnodup : (l.map fun c => c.id).Nodup) :
    ∀ c ∈ setClienteInactive l cid, c.id = cid → c.activo = false := by
  induction l with
  | nil => intro c hc; cases hc
  | cons a as ih =>
    simp only [List.map_cons, List.nodup_cons] at hnodup
    intro c hc hcid
    by_cases h : a.id = cid
    · rw [setClienteInactive, if_pos h] at hc
      rcases List.mem_cons.mp hc with rfl | hmem
      · rfl
      · apply absurd (List.mem_map_of_mem (fun x => x.id) hmem)
        intro hin
        apply hnodup.1
        simpa [hcid, h] using hin
    · rw [setClienteInactive, if_neg h] at hc
      rcases List.mem_cons.mp hc with rfl | hmem
      · exact absurd hcid h
      · exact ih hnodup.2 c hmem hcid

/-- C9: soft-deleting a customer hides them from the GET /clientes listing,
yet a direct GET /clientes/id still returns the record, now with
activo = false and every other field as before; the row is not removed
(customer count stable).  Ids are assumed unique, as the primary key
guarantees. -/
theorem soft_delete_cliente (cid : Nat) (db db' : DB)
    (hnodup : (db.clientes.map fun c => c.id).Nodup)
    (h : delete_cliente cid db = .ok ((), db')) :
    (∀ c ∈ list_clientes db', c.id ≠ cid) ∧
    (∃ c0, get_cliente cid db = .ok (c0, db) ∧
      get_cliente cid db' = .ok ({ c0 with activo := false }, db')) ∧
    db'.clientes.length = db.clientes.length := by
  unfold delete_cliente at h
  cases hf : db.clientes.find? fun c => c.id = cid with
  | none => rw [hf] at h; cases h
  | some c0 =>
    rw [hf] at h
    simp only [Except.ok.injEq, Prod.mk.injEq, true_and] at h
    obtain rfl := h.symm
    refine ⟨?_, ⟨c0, ?_, ?_⟩, length_setClienteInactive db.clientes cid⟩
    · intro c hc hcid
      unfold list_clientes at hc
      rw [List.mem_insertionSort, List.mem_filter] at hc
      have hact := mem_setClienteInactive_inactive db.clientes cid hnodup c hc.1 hcid
      rw [hc.2] at hact
      cases hact
    · unfold get_cliente
      rw [hf]
    · unfold get_cliente
      show (match (setClienteInactive db.clientes cid).find? fun c => c.id = cid with
        | none => Except.error (Err.http 404 "Cliente no encontrado")
        | some c => Except.ok (c, _)) = _
      rw [find?_setClienteInactive, hf]
      rfl

/-- Customer fixture: Ana, id 1, active. -/
def cliAna : Cliente :=
  { id := 1, nombre := "Ana", documento := "", telefono := "", email := ""
    direccion := "", activo := true, fecha_registro := 0 }

/-- Store with the single customer Ana. -/
def dbAna : DB := { emptyDB with clientes := [cliAna], next_cliente_id := 2 }

/-- Store after soft-deleting Ana. -/
def dbAnaDeleted : DB := { dbAna with clientes := [{ cliAna with activo := false }] }

/-- Witness for C9: deleting Ana keeps the customer row count at one. -/
theorem soft_delete_cliente_witness :
    dbAnaDeleted.clientes.length = dbAna.clientes.length :=
  (soft_delete_cliente 1 dbAna dbAnaDeleted (by decide) rfl).2.2

/-- C10: hard-deleting a receipt removes the receipt row and every one of
its ReceiptLine rows, while the ventas and cuenta_corriente tables (and the
rest of the store) are left exactly as they were — any sale or ledger row
referencing the receipt survives, its reference now dangling. -/
theorem delete_recibo_frame (rid : Nat) (db db' : DB)
    (h : delete_recibo rid db = .ok ((), db')) :
    (∀ r ∈ db'.recibos, r.id ≠ rid) ∧
    (∀ d ∈ db'.recibos_detalle, d.recibo_id ≠ rid) ∧
    db'.ventas = db.ventas ∧
    db'.cuenta_corriente = db.cuenta_corriente ∧
    db'.clientes = db.clientes ∧
    db'.productos = db.productos := by
  unfold delete_recibo at h
  cases hf : db.recibos.find? fun r => r.id = rid with
  | none => rw [hf] at h; cases h
  | some r0 =>
    rw [hf] at h
    simp only [Except.ok.injEq, Prod.mk.injEq, true_and] at h
    obtain rfl := h.symm
    refine ⟨?_, ?_, rfl, rfl, rfl, rfl⟩
    · intro r hr
      have hcond := (List.mem_filter.mp hr).2
      simpa using hcond
    · intro d hd
      have hcond := (List.mem_filter.mp hd).2
      simpa using hcond

/-- Detail line fixture attached to receipt 1. -/
def detDel : ReciboDetalle :=
  { id := 1, recibo_id := 1, producto_id := some 1, cantidad := 3
    precio_unitario := 5, subtotal := 15 }

/-- Sale fixture referencing receipt 1. -/
def ventaDel : Venta :=
  { id := 1, recibo_id := some 1, cliente_id := some 1, fecha := 0, total := 15
    forma_pago := "", vendedor := "" }

/-- Ledger fixture referencing receipt 1. -/
def ccDel : CuentaCorriente :=
  { id := 1, cliente_id := 1, tipo := "DEBE", monto := 15
    concepto := "Recibo R-001", recibo_id := some 1, fecha := 0, saldo := none }

/-- Store holding receipt 1 with one line, one sale and one ledger row
referencing it. -/
def dbLinked : DB :=
  { emptyDB with recibos := [recR1], recibos_detalle := [detDel]
                 ventas := [ventaDel], cuenta_corriente := [ccDel]
                 next_recibo_id := 2, next_detalle_id := 2
                 next_venta_id := 2, next_cc_id := 2 }

/-- Store after hard-deleting receipt 1 from `dbLinked`. -/
def dbLinkedDeleted : DB := { dbLinked with recibos := [], recibos_detalle := [] }

/-- Witness for C10: deleting receipt 1 leaves the referencing sale and
ledger rows untouched. -/
theorem delete_recibo_frame_witness :
    dbLinkedDeleted.ventas = dbLinked.ventas ∧
    dbLinkedDeleted.cuenta_corriente = dbLinked.cuenta_corriente :=
  ⟨(delete_recibo_frame 1 dbLinked dbLinkedDeleted rfl).2.2.1,
   (delete_recibo_frame 1 dbLinked dbLinkedDeleted rfl).2.2.2.1⟩

end FranSystem
